/-
Verification of the crawl → parse → index → query → rank pipeline and the job
scheduler of the `168` search-engine repository.

Each Python component that the checked claims touch is shallowly embedded as
Lean definitions below:

* `components/ranking.py`   — `SearchRanking` (field-match, TF-IDF, freshness,
  content-length and depth scoring, `rank_results`, weight management);
* `components/indexer.py`   — `SearchIndexer` (`add_document`, `index_pages`,
  `update_document`) over a functional model of a whoosh writer session;
* `components/crawler.py`   — `WebCrawler` (`crawl_page`, `crawl`) driven by an
  explicit `World` describing robots answers and fetch outcomes;
* `components/scheduler.py` — `CrawlScheduler` job CRUD and status updates;
* `search_engine.py`        — the `SearchEngine` facade state that owns one
  `WebCrawler` instance across `crawl_and_index` calls.

Python floats are modelled as real numbers, machine-level float rounding is out
of scope.  Python strings are Lean strings; `str.lower` is `Char.toLower`
mapped over the characters (faithful on the ASCII data the engine handles).
-/
import Mathlib

set_option autoImplicit false

namespace SearchEngine168

/-! ### Python string primitives used by the components -/

/-- `s.lower()`: lower-case every character. -/
def pyLower (s : String) : String := ⟨s.data.map Char.toLower⟩

/-- `pat in text` for Python strings: `pat` occurs as a contiguous substring. -/
def isSubstr (pat : List Char) : List Char → Bool
  | [] => pat.isEmpty
  | c :: rest => pat.isPrefixOf (c :: rest) || isSubstr pat rest

/-- `text.count(pat)`: number of non-overlapping occurrences, scanning left to
right (Python returns `len(text) + 1` for an empty pattern, as does this). -/
def countOcc (pat : List Char) : List Char → Nat
  | [] => if pat.isEmpty then 1 else 0
  | c :: rest =>
    if pat.isPrefixOf (c :: rest) then
      1 + countOcc pat (List.drop (pat.length - 1) rest)
    else
      countOcc pat rest
termination_by l => l.length
decreasing_by
  · simp only [List.length_cons, List.length_drop]
    omega
  · simp only [List.length_cons]
    omega

/-- `text.find(pat)`: index of the first occurrence, `none` for Python's `-1`. -/
def findSub (pat : List Char) : List Char → Option Nat
  | [] => if pat.isEmpty then some 0 else none
  | c :: rest =>
    if pat.isPrefixOf (c :: rest) then some 0
    else (findSub pat rest).map (· + 1)

/-- `s.split()`: split on whitespace runs, no empty words. -/
def pyWords (s : String) : List String :=
  (s.split (·.isWhitespace)).filter (· ≠ "")

/-! ### `components/ranking.py` — `SearchRanking`

`self.weights` always carries exactly the eight keys set in `__init__`
(`update_weights` can only add or overwrite keys), so the scoring path reads
them through a fixed record. -/

/-- The eight ranking knobs of `SearchRanking.__init__`. -/
structure RankingWeights where
  title_match : ℝ
  content_match : ℝ
  meta_description_match : ℝ
  heading_match : ℝ
  url_match : ℝ
  freshness : ℝ
  content_length : ℝ
  depth_penalty : ℝ

/-- The initial weight values from `SearchRanking.__init__`. -/
noncomputable def default_weights : RankingWeights :=
  { title_match := 3.0
    content_match := 1.0
    meta_description_match := 2.0
    heading_match := 2.5
    url_match := 1.5
    freshness := 1.0
    content_length := 0.5
    depth_penalty := -0.2 }

/-- `SearchRanking.calculate_title_score`: per-term exact / word-boundary /
substring scoring, also applied to meta descriptions and headings text. -/
def calculate_title_score (query_terms : List String) (title : String) : ℕ :=
  if title = "" then 0
  else
    let title_lower := pyLower title
    query_terms.foldl (fun score term =>
      let term_lower := pyLower term
      if isSubstr term_lower.data title_lower.data then
        if term_lower = title_lower then score + 10
        else if isSubstr (" " ++ term_lower ++ " ").data
            (" " ++ title_lower ++ " ").data then score + 5
        else score + 2
      else score) 0

/-- `SearchRanking.calculate_tf_idf`.  A whitespace-only non-empty document
would make Python raise `ZeroDivisionError`; the model's total division
returns junk there, which no checked claim exercises. -/
noncomputable def calculate_tf_idf (term document : String)
    (all_documents : List String) : ℝ :=
  let tf : ℝ := (countOcc (pyLower term).data (pyLower document).data : ℝ) /
    ((pyWords document).length : ℝ)
  let df : ℕ := (all_documents.filter
    (fun doc => isSubstr (pyLower term).data (pyLower doc).data)).length
  let idf : ℝ := Real.log ((all_documents.length : ℝ) / ((df : ℝ) + 1))
  tf * idf

/-- `SearchRanking.calculate_content_score`. -/
noncomputable def calculate_content_score (query_terms : List String)
    (content : String) (all_contents : List String) : ℝ :=
  if content = "" then 0
  else
    query_terms.foldl (fun score term =>
      let occurrences : ℕ := countOcc (pyLower term).data (pyLower content).data
      let tf_idf := calculate_tf_idf term content all_contents
      let position_bonus : ℝ :=
        match findSub (pyLower term).data (pyLower content).data with
        | none => 1.0
        | some first_occurrence =>
          1.0 - ((first_occurrence : ℝ) / (content.length : ℝ)) * 0.5
      score + (occurrences : ℝ) * tf_idf * position_bonus) 0

/-- `SearchRanking.calculate_url_score`. -/
def calculate_url_score (query_terms : List String) (url : String) : ℕ :=
  if url = "" then 0
  else
    query_terms.foldl (fun score term =>
      if isSubstr (pyLower term).data (pyLower url).data then score + 1
      else score) 0

/-- `SearchRanking.calculate_freshness_score`.  `current_time` is the value of
`time.time()` at the moment of the call; `crawl_time` is the hit's timestamp
(a `datetime` in the pipeline, hence truthy whenever present — `none` models
the falsy `None`/missing case). -/
noncomputable def calculate_freshness_score (current_time : ℝ)
    (crawl_time : Option ℝ) : ℝ :=
  match crawl_time with
  | none => 0
  | some t =>
    let age_days := (current_time - t) / (24 * 3600)
    Real.exp (-age_days / 30)

/-- `SearchRanking.calculate_content_length_score`; `optimal_length / 2 = 750`.
Note the leading `if not content_length` guard: a length of `0` is falsy. -/
noncomputable def calculate_content_length_score (content_length : ℕ) : ℝ :=
  if content_length = 0 then 0
  else if content_length < 100 then 0.1
  else if content_length > 10000 then 0.3
  else Real.exp (-(|(content_length : ℝ) - 1500| ^ 2) / (2 * (750 : ℝ) ^ 2))

/-- `SearchRanking.calculate_depth_penalty`. -/
noncomputable def calculate_depth_penalty (depth : ℕ) : ℝ := (depth : ℝ) * 0.1

/-- One formatted hit dict as handed from `QueryEngine.search` to
`SearchRanking.rank_results`; `score` is `none` when the `'score'` key is
absent, `crawl_time` is `none` when missing/`None`. -/
structure SearchHit where
  url : String
  title : String
  content : String
  meta_description : String
  headings : String
  score : Option ℝ
  content_length : ℕ
  crawl_time : Option ℝ
  depth : ℕ

/-- The `score_breakdown` dict that `rank_results` attaches to each hit. -/
structure ScoreBreakdown where
  title_score : ℝ
  content_score : ℝ
  meta_score : ℝ
  heading_score : ℝ
  url_score : ℝ
  freshness_score : ℝ
  content_length_score : ℝ
  depth_penalty : ℝ

/-- A hit after `rank_results` added `ranking_score` and `score_breakdown`. -/
structure RankedResult where
  hit : SearchHit
  ranking_score : ℝ
  score_breakdown : ScoreBreakdown

/-- The loop body of `rank_results`: all component scores of one hit and the
weighted total, including the raw whoosh score when present. -/
noncomputable def score_result (w : RankingWeights) (current_time : ℝ)
    (query_terms : List String) (all_contents : List String)
    (result : SearchHit) : RankedResult :=
  let title_score : ℝ := (calculate_title_score query_terms result.title : ℝ)
  let content_score := calculate_content_score query_terms result.content all_contents
  let url_score : ℝ := (calculate_url_score query_terms result.url : ℝ)
  let freshness_score := calculate_freshness_score current_time result.crawl_time
  let content_length_score := calculate_content_length_score result.content_length
  let depth_penalty := calculate_depth_penalty result.depth
  let meta_score : ℝ := (calculate_title_score query_terms result.meta_description : ℝ)
  let heading_score : ℝ := (calculate_title_score query_terms result.headings : ℝ)
  let total_score :=
    title_score * w.title_match +
    content_score * w.content_match +
    meta_score * w.meta_description_match +
    heading_score * w.heading_match +
    url_score * w.url_match +
    freshness_score * w.freshness +
    content_length_score * w.content_length -
    depth_penalty * |w.depth_penalty|
  let total_score :=
    match result.score with
    | some s => total_score + s
    | none => total_score
  { hit := result
    ranking_score := total_score
    score_breakdown :=
      { title_score := title_score
        content_score := content_score
        meta_score := meta_score
        heading_score := heading_score
        url_score := url_score
        freshness_score := freshness_score
        content_length_score := content_length_score
        depth_penalty := depth_penalty } }

/-- Insert into an accumulator kept in descending score order: the new element
goes after every element whose score is greater than or equal to its own
(Python `list.sort` is stable). -/
noncomputable def insert_desc (x : RankedResult) :
    List RankedResult → List RankedResult
  | [] => [x]
  | y :: ys =>
    if y.ranking_score < x.ranking_score then x :: y :: ys
    else y :: insert_desc x ys

/-- Stable sort by `ranking_score` descending
(`ranked_results.sort(key=..., reverse=True)`). -/
noncomputable def sort_desc (l : List RankedResult) : List RankedResult :=
  l.foldl (fun acc x => insert_desc x acc) []

/-- `SearchRanking.rank_results`.  `current_time` is the wall-clock instant of
the call (`time.time()`, read inside `calculate_freshness_score`). -/
noncomputable def rank_results (w : RankingWeights) (current_time : ℝ)
    (results : List SearchHit) (query_string : String) : List RankedResult :=
  match results with
  | [] => []
  | _ =>
    let query_terms := pyWords (pyLower query_string)
    let all_contents := results.map (·.content)
    sort_desc (results.map (score_result w current_time query_terms all_contents))

/-! ### The `self.weights` dict for `update_weights` / `get_weights`

`update_weights` calls `dict.update`, which writes every key of the argument
(none are validated against the eight documented names); `get_weights` returns
`self.weights.copy()`.  A Python dict with real-number values is modelled as an
association list with unique keys. -/

/-- A Python dict from strings to floats (insertion-ordered pairs). -/
abbrev WeightsDict : Type := List (String × ℝ)

/-- Dict lookup, `none` for a missing key. -/
def dget (d : WeightsDict) (k : String) : Option ℝ :=
  (List.find? (fun kv => kv.1 = k) d).map Prod.snd

/-- Dict key-membership test (`k in d`). -/
def dhas (d : WeightsDict) (k : String) : Prop :=
  k ∈ List.map Prod.fst d

instance (d : WeightsDict) (k : String) : Decidable (dhas d k) := by
  unfold dhas
  infer_instance

/-- Single-key dict assignment `d[k] = v`: overwrite in place when the key
exists, append otherwise. -/
def dset (d : WeightsDict) (k : String) (v : ℝ) : WeightsDict :=
  if dhas d k then
    List.map (fun kv => if kv.1 = k then (k, v) else kv) d
  else
    d ++ [(k, v)]

/-- The initial `self.weights` dict from `SearchRanking.__init__`. -/
noncomputable def initial_weights : WeightsDict :=
  [("title_match", 3.0), ("content_match", 1.0),
   ("meta_description_match", 2.0), ("heading_match", 2.5),
   ("url_match", 1.5), ("freshness", 1.0),
   ("content_length", 0.5), ("depth_penalty", -0.2)]

/-- `SearchRanking.update_weights`: `self.weights.update(new_weights)` writes
every key/value pair of the argument into the stored dict. -/
def update_weights (weights new_weights : WeightsDict) : WeightsDict :=
  List.foldl (fun acc kv => dset acc kv.1 kv.2) weights new_weights

/-- `SearchRanking.get_weights`: returns `self.weights.copy()` — in a
functional model the copy is the dict itself. -/
def get_weights (weights : WeightsDict) : WeightsDict := weights

/-! ### `components/indexer.py` — `SearchIndexer`

The index is the list of committed records.  A whoosh writer session buffers
`delete_by_term`/`add_document` operations and applies them on `commit`:
deletions remove matching records that existed when the writer was opened,
then the buffered additions are appended.  whoosh's `writer.add_document`
performs no uniqueness check — the `unique=True` flag on the `url` ID field is
honoured only by whoosh's own `update_document`, which this code never calls.
On `cancel` the buffered operations are discarded. -/

/-- The stored fields of one index record (the schema of `SearchIndexer`). -/
structure IndexRecord where
  url : String
  title : String
  content : String
  meta_description : String
  headings : String
  content_length : ℕ
  crawl_time : ℤ
  depth : ℕ
deriving DecidableEq

/-- A parsed-page dict as produced by the parser.  `url` is `none` when the
dict lacks the `'url'` key, in which case `parsed_page['url']` raises
`KeyError`; every other field is read with `.get` and a default.  The headings
list holds each heading's `'text'` entry. -/
structure ParsedPage where
  url : Option String
  title : String
  content : String
  meta_description : String
  headings : List String
  content_length : ℕ
  crawl_time : ℤ
  depth : ℕ
deriving DecidableEq

/-- An open whoosh writer session: the index at open time plus the buffered
deletions (urls passed to `delete_by_term('url', ·)`) and additions. -/
structure IndexWriter where
  base : List IndexRecord
  deletes : List String
  adds : List IndexRecord
deriving DecidableEq

/-- `writer.commit()`: apply buffered deletions to the records that existed at
open time, then append the buffered additions. -/
def IndexWriter.commit (w : IndexWriter) : List IndexRecord :=
  w.base.filter (fun r => !w.deletes.contains r.url) ++ w.adds

/-- The record built from a parsed page inside `add_document`; fails (raises
`KeyError`) exactly when the page dict has no `'url'` key. -/
def buildRecord (p : ParsedPage) : Except String IndexRecord :=
  match p.url with
  | none => .error "KeyError: url"
  | some u =>
    .ok { url := u
          title := p.title
          content := p.content
          meta_description := p.meta_description
          headings := String.intercalate " " p.headings
          content_length := p.content_length
          crawl_time := p.crawl_time
          depth := p.depth }

/-- `SearchIndexer.add_document`: buffer the record on the writer; any
exception while building it is caught inside this method and only logged, so
a malformed page leaves the writer unchanged and raises nothing. -/
def add_document (w : IndexWriter) (parsed_page : ParsedPage) : IndexWriter :=
  match buildRecord parsed_page with
  | .ok r => { w with adds := w.adds ++ [r] }
  | .error _ => w

/-- `SearchIndexer.index_pages`: open a writer, `add_document` each page, then
commit.  The `try`/`except` with `writer.cancel()` and re-raise only guards the
loop itself and the commit; since `add_document` swallows per-page errors and
the modelled commit cannot fail, the result is always `.ok`. -/
def index_pages (index : List IndexRecord) (parsed_pages : List ParsedPage) :
    Except String (List IndexRecord) :=
  .ok (parsed_pages.foldl add_document ⟨index, [], []⟩).commit

/-- `SearchIndexer.update_document`: open a writer, `delete_by_term('url',
parsed_page['url'])`, `add_document`, commit.  Reading `parsed_page['url']`
happens outside `add_document`'s swallow-all handler, so a missing url key
cancels the writer and propagates (`raise`). -/
def update_document (index : List IndexRecord) (parsed_page : ParsedPage) :
    Except String (List IndexRecord) :=
  match parsed_page.url with
  | none => .error "KeyError: url"
  | some u => .ok (add_document ⟨index, [u], []⟩ parsed_page).commit

/-! ### `components/crawler.py` — `WebCrawler`

The network is an explicit `World`: what robots.txt answers for a URL, and
what `session.get` yields there.  `extract_links` with its normalization to
absolute http/https URLs is modelled as the link list the world attaches to a
fetched page.  A fetch that raises (network error / `raise_for_status`) is a
`none` fetch outcome.  `fetchLog` is not a field of the Python object: it is
the observational trace of the URLs passed to `session.get`, appended at
exactly the point the code performs the request. -/

/-- Outcome of a successful `session.get`: whether the content type is HTML,
and the absolute http/https links `extract_links` finds in the body. -/
structure FetchResult where
  isHtml : Bool
  links : List String
deriving DecidableEq

/-- The crawler's environment: robots.txt answers and fetch outcomes.
Both are stable within a run (the world does not change between requests). -/
structure World where
  robots : String → Bool
  fetch : String → Option FetchResult

/-- One entry of `self.crawled_pages` (the fields the claims mention). -/
structure PageData where
  url : String
  depth : ℕ
  links : List String
deriving DecidableEq

/-- The mutable state of a `WebCrawler` instance. -/
structure CrawlerState where
  max_pages : ℕ
  max_depth : ℕ
  visited : List String
  queue : List (String × ℕ)
  pages : List PageData
  fetchLog : List String
deriving DecidableEq

/-- `WebCrawler.__init__` (defaults `max_pages=100`, `max_depth=3`). -/
def mkCrawler (max_pages : ℕ := 100) (max_depth : ℕ := 3) : CrawlerState :=
  { max_pages := max_pages
    max_depth := max_depth
    visited := []
    queue := []
    pages := []
    fetchLog := [] }

/-- `WebCrawler.crawl_page`: guards, robots check, fetch, content-type filter,
mark visited, enqueue unvisited links at `depth+1`, record the page.  Note the
order: the URL is added to `visited` only after a successful HTML response, so
a failed fetch leaves the URL unvisited. -/
def crawl_page (w : World) (s : CrawlerState) (url : String) (depth : ℕ) :
    CrawlerState :=
  if url ∈ s.visited ∨ s.max_pages ≤ s.pages.length ∨ s.max_depth < depth then s
  else if !w.robots url then s
  else
    let s := { s with fetchLog := s.fetchLog ++ [url] }
    match w.fetch url with
    | none => s
    | some response =>
      if !response.isHtml then s
      else
        let visited := s.visited ++ [url]
        let queue := s.queue ++
          (response.links.filter (· ∉ visited)).map (fun l => (l, depth + 1))
        { s with
          visited := visited
          queue := queue
          pages := s.pages ++ [{ url := url, depth := depth, links := response.links }] }

/-- The `while self.url_queue and len(self.crawled_pages) < self.max_pages`
loop of `WebCrawler.crawl`, with explicit fuel (the Python loop's termination
is by the page cap and queue exhaustion; every claim below holds for every
fuel value). -/
def crawl_loop (w : World) : ℕ → CrawlerState → CrawlerState
  | 0, s => s
  | fuel + 1, s =>
    match s.queue with
    | [] => s
    | (url, depth) :: rest =>
      if s.pages.length < s.max_pages then
        let s' := { s with queue := rest }
        crawl_loop w fuel (if url ∈ s'.visited then s' else crawl_page w s' url depth)
      else s

/-- `WebCrawler.crawl`: enqueue each seed at depth 0, run the loop, and return
`self.crawled_pages` (the instance's accumulated list). -/
def crawl (w : World) (fuel : ℕ) (s : CrawlerState) (seed_urls : List String) :
    CrawlerState × List PageData :=
  let s := { s with queue := s.queue ++ seed_urls.map (fun u => (u, 0)) }
  let s := crawl_loop w fuel s
  (s, s.pages)

/-! ### `search_engine.py` — the `SearchEngine` facade

`SearchEngine.__init__` constructs **one** `WebCrawler()` and stores it in
`self.crawler`; `crawl_and_index` only reassigns `self.crawler.max_pages` and
`self.crawler.max_depth` before calling `self.crawler.crawl(seed_urls)`, so
`visited_urls`, the queue and `crawled_pages` carry over between calls.  The
scheduler/parser/indexer collaborators never touch that crawler instance
(`CrawlScheduler.execute_crawl_job` builds its own local `WebCrawler`), so for
the crawl-state claims the facade state is its crawler. -/

structure SearchEngineState where
  crawler : CrawlerState
deriving DecidableEq

/-- `SearchEngine.__init__`: one crawler with constructor defaults. -/
def mkSearchEngine : SearchEngineState := { crawler := mkCrawler }

/-- `SearchEngine.crawl_and_index` (defaults `max_pages=50`, `max_depth=2`),
restricted to its crawl step: configure the shared crawler and run it.  The
returned page list is what the facade then parses and indexes. -/
def crawl_and_index (w : World) (fuel : ℕ) (se : SearchEngineState)
    (seed_urls : List String) (max_pages : ℕ := 50) (max_depth : ℕ := 2) :
    SearchEngineState × List PageData :=
  let c := { se.crawler with max_pages := max_pages, max_depth := max_depth }
  let (c, pages) := crawl w fuel c seed_urls
  ({ se with crawler := c }, pages)

/-! ### `components/scheduler.py` — `CrawlScheduler`

Job CRUD over the in-memory `self.crawl_jobs` list; `save_configuration` only
serializes the list and is a no-op on the modelled state.  Timestamps are a
calendar-free record: `day` counts days since 1970-01-01 (so `datetime +
timedelta(days=1)` is `day + 1`), with hour/minute/second fields
(`microsecond` is dropped along with `replace(microsecond=0)`). -/

/-- A wall-clock instant; `day` is days since 1970-01-01. -/
structure Dt where
  day : ℕ
  hour : ℕ
  minute : ℕ
  second : ℕ
deriving DecidableEq

/-- One entry of `self.crawl_jobs`. -/
structure CrawlJob where
  id : ℕ
  name : String
  seed_urls : List String
  schedule_type : String
  schedule_time : String
  max_pages : ℕ
  max_depth : ℕ
  created_at : Dt
  last_run : Option Dt
  next_run : Option Dt
  status : String
deriving DecidableEq

/-- Python `int()` on a digit string (`none` models the `ValueError` raise;
the sign/whitespace forms `int` also accepts never occur in `"HH:MM"` data). -/
def pyInt (cs : List Char) : Option ℕ :=
  if cs.isEmpty then none
  else cs.foldl (fun acc? c =>
    acc?.bind (fun acc => if c.isDigit then some (acc * 10 + (c.toNat - 48)) else none))
    (some 0)

/-- `CrawlScheduler.add_crawl_job`: id is `len(self.crawl_jobs) + 1`, status
`'scheduled'`, appended and persisted; returns the new job's id. -/
def add_crawl_job (now : Dt) (jobs : List CrawlJob) (name : String)
    (seed_urls : List String) (schedule_type : String := "daily")
    (schedule_time : String := "02:00") (max_pages : ℕ := 100)
    (max_depth : ℕ := 3) : List CrawlJob × ℕ :=
  let job : CrawlJob :=
    { id := jobs.length + 1
      name := name
      seed_urls := seed_urls
      schedule_type := schedule_type
      schedule_time := schedule_time
      max_pages := max_pages
      max_depth := max_depth
      created_at := now
      last_run := none
      next_run := none
      status := "scheduled" }
  (jobs ++ [job], job.id)

/-- `CrawlScheduler.remove_crawl_job`: keep every job whose id differs. -/
def remove_crawl_job (jobs : List CrawlJob) (job_id : ℕ) : List CrawlJob :=
  jobs.filter (fun job => job.id ≠ job_id)

/-- The body of `CrawlScheduler.update_job_status` applied to the matched job:
set the status, optionally the run stamps; on `'completed'` for a `'daily'`
job with no explicit `next_run`, parse `schedule_time[:2]` / `[3:]`, take
tomorrow at that time-of-day and reset the status to `'scheduled'`.  A parse
or `replace` failure (`int()` `ValueError`, or hour/minute out of range) is
caught and logged, leaving the job with the bare status update. -/
def apply_status_update (now : Dt) (status : String) (last_run next_run : Option Dt)
    (job : CrawlJob) : CrawlJob :=
  let job := { job with status := status }
  let job :=
    match last_run with
    | some lr => { job with last_run := some lr }
    | none => job
  match next_run with
  | some nr => { job with next_run := some nr }
  | none =>
    if status = "completed" ∧ job.schedule_type = "daily" then
      match pyInt (job.schedule_time.data.take 2), pyInt (job.schedule_time.data.drop 3) with
      | some hour, some minute =>
        if hour < 24 ∧ minute < 60 then
          { job with
            next_run := some { day := now.day + 1, hour := hour, minute := minute, second := 0 }
            status := "scheduled" }
        else job
      | _, _ => job
    else job

/-- `CrawlScheduler.update_job_status`: the `for ... if job['id'] == job_id ...
break` loop touches only the first job with the given id. -/
def update_job_status (now : Dt) (jobs : List CrawlJob) (job_id : ℕ)
    (status : String) (last_run : Option Dt := none)
    (next_run : Option Dt := none) : List CrawlJob :=
  match jobs with
  | [] => []
  | job :: rest =>
    if job.id = job_id then apply_status_update now status last_run next_run job :: rest
    else job :: update_job_status now rest job_id status last_run next_run

deriving instance DecidableEq for Except

/-! ### Invariant of a crawl run (used to state the crawl safety claim) -/

/-- Intra-state safety facts of a crawler whose limits are `mp`/`md`: the
limits are those values, collected pages have pairwise-distinct URLs all of
which are marked visited, the page count respects the cap, and no collected
page exceeds the depth limit. -/
def CrawlInv (mp md : ℕ) (s : CrawlerState) : Prop :=
  s.max_pages = mp ∧ s.max_depth = md ∧
  (s.pages.map (·.url)).Nodup ∧
  (∀ p ∈ s.pages, p.url ∈ s.visited) ∧
  s.pages.length ≤ mp ∧
  (∀ p ∈ s.pages, p.depth ≤ md)

/-! ### Concrete inputs used by counterexamples and witnesses -/

/-- A committed record for `https://a.test/`. -/
def exRecOld : IndexRecord :=
  { url := "https://a.test/", title := "old title", content := "old body"
    meta_description := "", headings := "", content_length := 8
    crawl_time := 0, depth := 0 }

/-- A well-formed parsed page for the same URL with fresh content. -/
def exPageNew : ParsedPage :=
  { url := some "https://a.test/", title := "new title", content := "new body"
    meta_description := "", headings := [], content_length := 8
    crawl_time := 100, depth := 0 }

/-- The record `add_document` builds from `exPageNew`. -/
def exRecNew : IndexRecord :=
  { url := "https://a.test/", title := "new title", content := "new body"
    meta_description := "", headings := "", content_length := 8
    crawl_time := 100, depth := 0 }

/-- A malformed parsed page: its dict has no `'url'` key, so building it
raises `KeyError` inside `add_document`. -/
def exPageBad : ParsedPage :=
  { url := none, title := "bad", content := "", meta_description := ""
    headings := [], content_length := 0, crawl_time := 0, depth := 0 }

/-- A world where `"a"` is served with a non-HTML content type: the fetch
happens but yields no page and the URL is never marked visited. -/
def exWorldNonHtml : World :=
  { robots := fun _ => true
    fetch := fun u => if u = "a" then some { isHtml := false, links := [] } else none }

/-- A world where every fetch raises a network error. -/
def exWorldDown : World :=
  { robots := fun _ => true, fetch := fun _ => none }

/-- A world with two link-free HTML pages `u1` and `u2`. -/
def exWorldTwoPages : World :=
  { robots := fun _ => true
    fetch := fun u =>
      if u = "u1" ∨ u = "u2" then some { isHtml := true, links := [] } else none }

/-- First facade call: `crawl_and_index(["u1"])` on a fresh `SearchEngine`. -/
def seRun1 : SearchEngineState × List PageData :=
  crawl_and_index exWorldTwoPages 2 mkSearchEngine ["u1"]

/-- Second facade call on the same engine: `crawl_and_index(["u1", "u2"])`. -/
def seRun2 : SearchEngineState × List PageData :=
  crawl_and_index exWorldTwoPages 3 seRun1.1 ["u1", "u2"]

/-- 2024-01-01T10:00:00 (day 19723 since 1970-01-01). -/
def exNow : Dt := { day := 19723, hour := 10, minute := 0, second := 0 }

/-- A daily job, id 1, configured for 02:00, currently running. -/
def exDailyJob : CrawlJob :=
  { id := 1, name := "nightly", seed_urls := ["https://a.test/"]
    schedule_type := "daily", schedule_time := "02:00"
    max_pages := 100, max_depth := 3, created_at := exNow
    last_run := none, next_run := none, status := "running" }

/-- Scheduler state after `add_crawl_job("job a", ...)` on an empty list. -/
def jobsA : List CrawlJob := (add_crawl_job exNow [] "job a" ["https://a.test/"]).1

/-- … then `add_crawl_job("job b", ...)`. -/
def jobsB : List CrawlJob := (add_crawl_job exNow jobsA "job b" ["https://b.test/"]).1

/-- … then `remove_crawl_job(1)`. -/
def jobsAfterRemove : List CrawlJob := remove_crawl_job jobsB 1

/-- … then `add_crawl_job("job c", ...)`. -/
def jobsC : List CrawlJob :=
  (add_crawl_job exNow jobsAfterRemove "job c" ["https://c.test/"]).1

/-- A hit whose only non-trivial feature is a crawl timestamp (epoch second
2592000, i.e. 30 days after the epoch). -/
noncomputable def exHitFresh : SearchHit :=
  { url := "", title := "", content := "", meta_description := "", headings := ""
    score := none, content_length := 0, crawl_time := some 2592000, depth := 0 }

/-- A hit carrying no crawl timestamp. -/
def exHitStale : SearchHit :=
  { url := "", title := "", content := "", meta_description := "", headings := ""
    score := none, content_length := 0, crawl_time := none, depth := 0 }

/-- An update map touching a key outside the eight documented weight names. -/
noncomputable def exNewWeights : WeightsDict := [("brand_new_knob", 9)]

/-! ## Theorems -/

/-! ### C6 — content-length score -/

/-- Inside `[100, 10000]` the score is the Gaussian bump of the source. -/
theorem content_length_score_gauss {L : ℕ} (h1 : 100 ≤ L) (h2 : L ≤ 10000) :
    calculate_content_length_score L =
      Real.exp (-(((L : ℝ) - 1500) ^ 2) / (2 * 750 ^ 2)) := by
  unfold calculate_content_length_score
  rw [if_neg (by omega), if_neg (by omega), if_neg (by omega), sq_abs]

/-- The Gaussian bump strictly decreases in the absolute offset. -/
theorem gauss_strict_anti {x y : ℝ} (h0 : 0 ≤ x) (hxy : x < y) :
    Real.exp (-(y ^ 2) / (2 * 750 ^ 2)) < Real.exp (-(x ^ 2) / (2 * 750 ^ 2)) := by
  apply Real.exp_lt_exp.mpr
  have hx2 : x ^ 2 < y ^ 2 := by nlinarith
  linarith

/-- Claim C6 (counterexample): the content-length score at length 0 is 0, not
the 0.1 the claim requires for every length below 100 — `if not
content_length` catches the falsy 0 first. -/
theorem content_length_score_zero_cx :
    calculate_content_length_score 0 = 0 ∧ calculate_content_length_score 0 ≠ 0.1 := by
  have h : calculate_content_length_score 0 = 0 := by
    unfold calculate_content_length_score
    rw [if_pos rfl]
  refine ⟨h, ?_⟩
  rw [h]
  norm_num

/-- Claim C6 (amended): for every positive content length `L` the score is 0.1
when `L < 100`, 0.3 when `L > 10000`, and otherwise the Gaussian bump
`exp(−(L−1500)² / (2·750²))`; the score is exactly 1 at `L = 1500` and
strictly decreases as `L` moves away from 1500 within `[100, 10000]`.  (At
`L = 0` the score is 0, per the counterexample.) -/
theorem content_length_score_spec :
    (∀ L : ℕ, 1 ≤ L → L < 100 → calculate_content_length_score L = 0.1) ∧
    (∀ L : ℕ, 10000 < L → calculate_content_length_score L = 0.3) ∧
    (∀ L : ℕ, 100 ≤ L → L ≤ 10000 →
      calculate_content_length_score L =
        Real.exp (-(((L : ℝ) - 1500) ^ 2) / (2 * 750 ^ 2))) ∧
    calculate_content_length_score 1500 = 1 ∧
    (∀ a b : ℕ, 1500 ≤ a → a < b → b ≤ 10000 →
      calculate_content_length_score b < calculate_content_length_score a) ∧
    (∀ a b : ℕ, 100 ≤ a → a < b → b ≤ 1500 →
      calculate_content_length_score a < calculate_content_length_score b) := by
  refine ⟨?_, ?_, fun L h1 h2 => content_length_score_gauss h1 h2, ?_, ?_, ?_⟩
  · intro L h1 h2
    unfold calculate_content_length_score
    rw [if_neg (by omega), if_pos (by omega)]
  · intro L h
    unfold calculate_content_length_score
    rw [if_neg (by omega), if_neg (by omega), if_pos (by omega)]
  · rw [content_length_score_gauss (by norm_num) (by norm_num)]
    norm_num
  · intro a b ha hab hb
    rw [content_length_score_gauss (L := b) (by omega) hb,
        content_length_score_gauss (L := a) (by omega) (by omega)]
    have h0 : (0 : ℝ) ≤ (a : ℝ) - 1500 := by
      have : (1500 : ℝ) ≤ (a : ℝ) := by exact_mod_cast ha
      linarith
    have hxy : (a : ℝ) - 1500 < (b : ℝ) - 1500 := by
      have : (a : ℝ) < (b : ℝ) := by exact_mod_cast hab
      linarith
    exact gauss_strict_anti h0 hxy
  · intro a b ha hab hb
    rw [content_length_score_gauss (L := a) ha (by omega),
        content_length_score_gauss (L := b) (by omega) (by omega)]
    have hsq : ∀ z : ℝ, (z - 1500) ^ 2 = (1500 - z) ^ 2 := fun z => by ring
    rw [hsq (a : ℝ), hsq (b : ℝ)]
    have h0 : (0 : ℝ) ≤ 1500 - (b : ℝ) := by
      have : (b : ℝ) ≤ 1500 := by exact_mod_cast hb
      linarith
    have hxy : 1500 - (b : ℝ) < 1500 - (a : ℝ) := by
      have : (a : ℝ) < (b : ℝ) := by exact_mod_cast hab
      linarith
    exact gauss_strict_anti h0 hxy

/-- Claim C6 (witness): the amended statement at lengths 99, 10001 and on the
strictly-decreasing right flank at 1600 < 2000. -/
theorem content_length_score_spec_witness :
    calculate_content_length_score 99 = 0.1 ∧
    calculate_content_length_score 10001 = 0.3 ∧
    calculate_content_length_score 2000 < calculate_content_length_score 1600 :=
  ⟨content_length_score_spec.1 99 (by norm_num) (by norm_num),
   content_length_score_spec.2.1 10001 (by norm_num),
   content_length_score_spec.2.2.2.2.1 1600 2000 (by norm_num) (by norm_num) (by norm_num)⟩

/-! ### C9 — field-match (title / meta / headings) score -/

/-- A left fold that adds a per-element amount equals the starting value plus
the sum of the amounts. -/
theorem foldl_accum_eq_sum {α : Type} (f : ℕ → α → ℕ)
    (hf : ∀ acc x, f acc x = acc + f 0 x) :
    ∀ (l : List α) (init : ℕ), l.foldl f init = init + (l.map (f 0)).sum := by
  intro l
  induction l with
  | nil => intro init; simp
  | cons x xs ih =>
    intro init
    simp only [List.foldl_cons, List.map_cons, List.sum_cons]
    rw [hf init x, ih]
    ring

/-- A nonempty lowered term is never a substring of the empty field. -/
theorem isSubstr_nil_of_ne {t : String} (h : t ≠ "") :
    isSubstr (pyLower t).data [] = false := by
  have : (pyLower t).data = t.data.map Char.toLower := rfl
  rw [isSubstr, this]
  cases ht : t.data with
  | nil => exact absurd (by cases t; simp_all) h
  | cons c cs => simp [List.isEmpty]

/-- Claim C9: the field-match score is the per-term sum — for each term that
occurs as a case-insensitive substring of the field: +10 when the whole field
equals the term, +5 when it occurs space-bounded, else +2; 0 when absent —and
a title equal to the single query term scores 10, strictly above the 2 of a
substring-only match.  (Query terms come from a whitespace split, hence are
nonempty.) -/
theorem title_score_spec :
    (∀ (query_terms : List String) (title : String),
      (∀ t ∈ query_terms, t ≠ "") →
      calculate_title_score query_terms title =
        (query_terms.map (fun term =>
          let term_lower := pyLower term
          let title_lower := pyLower title
          if isSubstr term_lower.data title_lower.data then
            if term_lower = title_lower then 10
            else if isSubstr (" " ++ term_lower ++ " ").data
                (" " ++ title_lower ++ " ").data then 5
            else 2
          else 0)).sum) ∧
    calculate_title_score ["api"] "API" = 10 ∧
    calculate_title_score ["api"] "MyAPIdocs" = 2 ∧ (2 : ℕ) < 10 := by
  refine ⟨?_, by decide, by decide, by decide⟩
  intro query_terms title hterms
  by_cases htitle : title = ""
  · subst htitle
    rw [calculate_title_score, if_pos rfl]
    symm
    apply List.sum_eq_zero
    intro x hx
    rw [List.mem_map] at hx
    obtain ⟨t, ht, rfl⟩ := hx
    have h0 : (pyLower "").data = [] := rfl
    simp only [h0, isSubstr_nil_of_ne (hterms t ht)]
    simp
  · rw [calculate_title_score, if_neg htitle]
    rw [foldl_accum_eq_sum _ (fun acc x => by dsimp only; split_ifs <;> omega)]
    simp only [Nat.zero_add]

/-- Claim C9 (witness): the per-term sum formula applied to a two-term query
against a word-bounded title, and the exact-title score of 10. -/
theorem title_score_spec_witness :
    calculate_title_score ["api", "guide"] "rust api guide" =
      ((["api", "guide"] : List String).map (fun term =>
        let term_lower := pyLower term
        let title_lower := pyLower "rust api guide"
        if isSubstr term_lower.data title_lower.data then
          if term_lower = title_lower then 10
          else if isSubstr (" " ++ term_lower ++ " ").data
              (" " ++ title_lower ++ " ").data then 5
          else 2
        else 0)).sum ∧
    calculate_title_score ["api"] "API" = 10 :=
  ⟨title_score_spec.1 ["api", "guide"] "rust api guide" (by decide),
   title_score_spec.2.1⟩

/-! ### C10 — weight update merge semantics -/

/-- Lookup on a cons dict: head if the key matches, tail lookup otherwise. -/
theorem dget_cons (kv : String × ℝ) (d : WeightsDict) (k : String) :
    dget (kv :: d) k = if kv.1 = k then some kv.2 else dget d k := by
  by_cases h : kv.1 = k
  · simp [dget, List.find?, h]
  · simp [dget, List.find?, h]

/-- Assigning a key makes it look up to the assigned value. -/
theorem dget_dset_self (d : WeightsDict) (k : String) (v : ℝ) :
    dget (dset d k v) k = some v := by
  unfold dset
  by_cases hmem : dhas d k
  · rw [if_pos hmem]
    unfold dhas at hmem
    induction d with
    | nil => simp at hmem
    | cons kv rest ih =>
      rw [List.map_cons]
      by_cases hk : kv.1 = k
      · rw [if_pos hk, dget_cons]
        simp
      · rw [if_neg hk, dget_cons, if_neg hk]
        apply ih
        rw [List.map_cons, List.mem_cons] at hmem
        rcases hmem with h | h
        · exact absurd h.symm hk
        · exact h
  · rw [if_neg hmem]
    unfold dhas at hmem
    induction d with
    | nil => simp [dget, List.find?]
    | cons kv rest ih =>
      have hk : kv.1 ≠ k := by
        intro hc
        exact hmem (by rw [List.map_cons, List.mem_cons]; exact Or.inl hc.symm)
      rw [List.cons_append, dget_cons, if_neg hk]
      apply ih
      intro hc
      exact hmem (by rw [List.map_cons, List.mem_cons]; exact Or.inr hc)

/-- Assigning a key leaves every other key's lookup unchanged. -/
theorem dget_dset_ne (d : WeightsDict) (k k' : String) (v : ℝ) (h : k' ≠ k) :
    dget (dset d k v) k' = dget d k' := by
  unfold dset
  by_cases hmem : dhas d k
  · rw [if_pos hmem]
    clear hmem
    induction d with
    | nil => rfl
    | cons kv rest ih =>
      rw [List.map_cons]
      by_cases hk : kv.1 = k
      · rw [if_pos hk, dget_cons, dget_cons, if_neg (fun hc => h hc.symm),
            if_neg (fun hc => h (hk ▸ hc).symm)]
        exact ih
      · rw [if_neg hk, dget_cons, dget_cons]
        by_cases hk' : kv.1 = k'
        · rw [if_pos hk', if_pos hk']
        · rw [if_neg hk', if_neg hk']
          exact ih
  · rw [if_neg hmem]
    clear hmem
    induction d with
    | nil =>
      rw [List.nil_append, dget_cons, if_neg (fun hc => h hc.symm)]
    | cons kv rest ih =>
      rw [List.cons_append, dget_cons, dget_cons]
      by_cases hk' : kv.1 = k'
      · rw [if_pos hk', if_pos hk']
      · rw [if_neg hk', if_neg hk']
        exact ih

/-- Claim C10: `update_weights` validates nothing — every key of the update
map (documented or not) ends up in the stored dict with the given value, and
every key not named in the update keeps its previous lookup; `get_weights`
then returns that merged dict.  (Update maps are Python dicts, so their keys
are pairwise distinct.) -/
theorem update_weights_spec :
    ∀ (weights new_weights : WeightsDict) (k : String),
      (new_weights.map Prod.fst).Nodup →
      dget (get_weights (update_weights weights new_weights)) k =
        if dhas new_weights k then dget new_weights k else dget weights k := by
  intro w m k
  induction m generalizing w with
  | nil =>
    intro _
    simp [update_weights, get_weights, dhas]
  | cons kv rest ih =>
    intro hnodup
    rw [List.map_cons, List.nodup_cons] at hnodup
    obtain ⟨hkv, hrest⟩ := hnodup
    have hstep : update_weights w (kv :: rest) = update_weights (dset w kv.1 kv.2) rest := rfl
    rw [hstep, ih _ hrest]
    by_cases h1 : dhas rest k
    · rw [if_pos h1, if_pos (by
        unfold dhas at h1 ⊢
        rw [List.map_cons, List.mem_cons]
        exact Or.inr h1)]
      have hne : kv.1 ≠ k := fun hc => hkv (hc ▸ h1)
      rw [dget_cons, if_neg hne]
    · by_cases h2 : kv.1 = k
      · rw [if_neg h1, if_pos (by
          unfold dhas
          rw [List.map_cons, List.mem_cons]
          exact Or.inl h2.symm)]
        rw [h2, dget_dset_self, dget_cons, if_pos h2]
      · rw [if_neg h1, if_neg (by
          unfold dhas
          rw [List.map_cons, List.mem_cons]
          rintro (hc | hc)
          · exact h2 hc.symm
          · exact h1 hc)]
        exact dget_dset_ne w kv.1 k kv.2 (fun hc => h2 hc.symm)

/-- Claim C10 (witness): updating the default weights with the undocumented
key `"brand_new_knob"` stores it, and the untouched `"title_match"` keeps its
previous value. -/
theorem update_weights_spec_witness :
    (dget (get_weights (update_weights initial_weights exNewWeights)) "brand_new_knob" =
      if dhas exNewWeights "brand_new_knob" then dget exNewWeights "brand_new_knob"
      else dget initial_weights "brand_new_knob") ∧
    (dget (get_weights (update_weights initial_weights exNewWeights)) "title_match" =
      if dhas exNewWeights "title_match" then dget exNewWeights "title_match"
      else dget initial_weights "title_match") :=
  ⟨update_weights_spec initial_weights exNewWeights "brand_new_knob" (by simp [exNewWeights]),
   update_weights_spec initial_weights exNewWeights "title_match" (by simp [exNewWeights])⟩

/-! ### C4 — job-id assignment -/

/-- Claim C4: evaluation of the code at the failing input.  `add_crawl_job`
assigns `len(self.crawl_jobs) + 1`, so after add("job a") → 1,
add("job b") → 2, remove(1), the next add("job c") returns 2 again: the job
list now holds two distinct jobs with id 2 (and the new id is not strictly
greater than every earlier one). -/
theorem job_id_reuse_after_removal :
    (add_crawl_job exNow jobsA "job b" ["https://b.test/"]).2 = 2 ∧
    (add_crawl_job exNow jobsAfterRemove "job c" ["https://c.test/"]).2 = 2 ∧
    jobsC.map (·.id) = [2, 2] ∧
    ¬ (jobsC.map (·.id)).Nodup := by decide

/-! ### C8 — daily next-run computation -/

/-- Claim C8: updating the first job with the given id to `completed`, for a
`daily` job and no explicit next run, parses `schedule_time` as `HH:MM`, sets
`next_run` to the day after the current day at that time of day (seconds
zeroed), and resets the status to `scheduled`; other jobs are untouched. -/
theorem daily_next_run_spec (now : Dt) (pre post : List CrawlJob)
    (job : CrawlJob) (job_id : ℕ) (last_run : Option Dt) (hour minute : ℕ)
    (hpre : ∀ j ∈ pre, j.id ≠ job_id)
    (hid : job.id = job_id)
    (hdaily : job.schedule_type = "daily")
    (hhour : pyInt (job.schedule_time.data.take 2) = some hour)
    (hminute : pyInt (job.schedule_time.data.drop 3) = some minute)
    (hh24 : hour < 24) (hm60 : minute < 60) :
    update_job_status now (pre ++ job :: post) job_id "completed" last_run none =
      pre ++
        { job with
          status := "scheduled"
          last_run := (match last_run with | some lr => some lr | none => job.last_run)
          next_run := some { day := now.day + 1, hour := hour, minute := minute, second := 0 } }
        :: post := by
  induction pre with
  | nil =>
    rw [List.nil_append, List.nil_append, update_job_status, if_pos hid]
    congr 1
    unfold apply_status_update
    cases last_run with
    | none =>
      simp only [hdaily, hhour, hminute]
      rw [if_pos (show hour < 24 ∧ minute < 60 from ⟨hh24, hm60⟩)]
      simp
    | some lr =>
      simp only [hdaily, hhour, hminute]
      rw [if_pos (show hour < 24 ∧ minute < 60 from ⟨hh24, hm60⟩)]
      simp
  | cons j rest ih =>
    rw [List.cons_append, List.cons_append, update_job_status,
        if_neg (hpre j (List.mem_cons_self j rest))]
    rw [ih (fun j' hj' => hpre j' (List.mem_cons_of_mem j hj'))]

/-- Claim C8 (witness): the spec scenario — a daily job with schedule time
"02:00" completed at 2024-01-01T10:00:00 (day 19723) gets next_run
2024-01-02T02:00:00 (day 19724) and status `scheduled`. -/
theorem daily_next_run_spec_witness :
    update_job_status exNow [exDailyJob] 1 "completed" none none =
      [{ exDailyJob with
          status := "scheduled"
          next_run := some { day := 19724, hour := 2, minute := 0, second := 0 } }] :=
  daily_next_run_spec exNow [] [] exDailyJob 1 none 2 0
    (by intro j hj; simp at hj) rfl rfl (by decide) (by decide)
    (by decide) (by decide)

/-! ### C1 — one record per URL on re-index -/

/-- Claim C1: evaluation of the code at the failing input.  Re-indexing a URL
through the bulk path `index_pages` appends a second record — whoosh's
`writer.add_document` never deletes by the unique `url` key — so the index
ends with two records for `https://a.test/`; only the single-document
`update_document` path deletes-then-inserts, leaving exactly one. -/
theorem bulk_reindex_duplicates_url :
    index_pages [exRecOld] [exPageNew] = .ok [exRecOld, exRecNew] ∧
    (([exRecOld, exRecNew].filter (fun r => r.url = "https://a.test/")).length = 2) ∧
    update_document [exRecOld] exPageNew = .ok [exRecNew] := by decide

/-! ### C3 — batch atomicity and error propagation -/

/-- Claim C3 (counterexample): a batch holding one well-formed page and one
malformed page (no `'url'` key, so `add_document` raises and swallows a
`KeyError`) neither rolls back nor propagates: `index_pages` returns
normally and the well-formed page is committed, changing the index. -/
theorem index_pages_partial_commit_cx :
    index_pages [exRecOld] [exPageNew, exPageBad] = .ok [exRecOld, exRecNew] ∧
    ([exRecOld, exRecNew] : List IndexRecord) ≠ [exRecOld] := by decide

/-- The fold of `add_document` over a writer buffers exactly the records of
the well-formed pages, in order. -/
theorem foldl_add_document (parsed_pages : List ParsedPage) :
    ∀ w : IndexWriter,
      parsed_pages.foldl add_document w =
        { w with adds := w.adds ++
            parsed_pages.filterMap (fun p => (buildRecord p).toOption) } := by
  induction parsed_pages with
  | nil => intro w; simp
  | cons p ps ih =>
    intro w
    rw [List.foldl_cons, ih]
    unfold add_document
    cases hb : buildRecord p with
    | ok r => simp [hb, Except.toOption]
    | error e => simp [hb, Except.toOption]

/-- Claim C3 (amended): `index_pages` always returns normally; a page whose
document fails to build is logged and skipped inside `add_document` while the
rest of the batch still commits — the new index is the old one with exactly
the successfully built records appended.  (Only a failure outside the
per-document adds — e.g. in `writer.commit()` itself — takes the
`writer.cancel()`-and-re-raise path.) -/
theorem index_pages_commits_wellformed :
    ∀ (index : List IndexRecord) (parsed_pages : List ParsedPage),
      index_pages index parsed_pages =
        .ok (index ++ parsed_pages.filterMap (fun p => (buildRecord p).toOption)) := by
  intro index parsed_pages
  unfold index_pages
  rw [foldl_add_document]
  unfold IndexWriter.commit
  simp

/-! ### C7 — crawl-run safety -/

/-- `crawl_page` preserves the crawl-run invariant. -/
theorem crawl_page_inv {mp md : ℕ} {w : World} {s : CrawlerState}
    {url : String} {depth : ℕ} (h : CrawlInv mp md s) :
    CrawlInv mp md (crawl_page w s url depth) := by
  obtain ⟨hmp, hmd, hnodup, hvis, hlen, hdepth⟩ := h
  unfold crawl_page
  by_cases h1 : url ∈ s.visited ∨ s.max_pages ≤ s.pages.length ∨ s.max_depth < depth
  · rw [if_pos h1]; exact ⟨hmp, hmd, hnodup, hvis, hlen, hdepth⟩
  · rw [if_neg h1]
    push_neg at h1
    obtain ⟨hnotvis, hroom, hdok⟩ := h1
    by_cases h2 : (!w.robots url) = true
    · rw [if_pos h2]; exact ⟨hmp, hmd, hnodup, hvis, hlen, hdepth⟩
    · rw [if_neg h2]
      cases hf : w.fetch url with
      | none => exact ⟨hmp, hmd, hnodup, hvis, hlen, hdepth⟩
      | some response =>
        dsimp only
        by_cases h3 : (!response.isHtml) = true
        · rw [if_pos h3]; exact ⟨hmp, hmd, hnodup, hvis, hlen, hdepth⟩
        · rw [if_neg h3]
          refine ⟨hmp, hmd, ?_, ?_, ?_, ?_⟩
          · rw [List.map_append, List.map_singleton]
            rw [List.nodup_append]
            refine ⟨hnodup, List.nodup_singleton url, ?_⟩
            intro u hu hu'
            rw [List.mem_singleton] at hu'
            subst hu'
            rw [List.mem_map] at hu
            obtain ⟨p, hp, hpu⟩ := hu
            exact hnotvis (hpu ▸ hvis p hp)
          · intro p hp
            rw [List.mem_append] at hp
            rcases hp with hp | hp
            · exact List.mem_append_left _ (hvis p hp)
            · rw [List.mem_singleton] at hp
              subst hp
              exact List.mem_append_right _ (List.mem_singleton_self url)
          · rw [List.length_append, List.length_singleton, ← hmp]
            omega
          · intro p hp
            rw [List.mem_append] at hp
            rcases hp with hp | hp
            · exact hdepth p hp
            · rw [List.mem_singleton] at hp
              subst hp
              rw [← hmd]
              exact hdok

/-- `crawl_loop` preserves the crawl-run invariant. -/
theorem crawl_loop_inv {mp md : ℕ} (w : World) :
    ∀ (fuel : ℕ) (s : CrawlerState), CrawlInv mp md s →
      CrawlInv mp md (crawl_loop w fuel s) := by
  intro fuel
  induction fuel with
  | zero => intro s h; exact h
  | succ n ih =>
    intro s h
    rw [crawl_loop]
    cases hq : s.queue with
    | nil => exact h
    | cons front rest =>
      obtain ⟨url, depth⟩ := front
      dsimp only
      by_cases hroom : s.pages.length < s.max_pages
      · rw [if_pos hroom]
        apply ih
        have h' : CrawlInv mp md { s with queue := rest } := by
          obtain ⟨hmp, hmd, hnodup, hvis, hlen, hdepth⟩ := h
          exact ⟨hmp, hmd, hnodup, hvis, hlen, hdepth⟩
        by_cases hv : url ∈ ({ s with queue := rest } : CrawlerState).visited
        · rw [if_pos hv]; exact h'
        · rw [if_neg hv]; exact crawl_page_inv h'
      · rw [if_neg hroom]; exact h

/-- Claim C7 (counterexample): the same URL **is** fetched twice in one run.
With `"a"` served as non-HTML, the failed attempt does not mark `"a"`
visited, so the duplicate seed `["a", "a"]` triggers two `session.get`
requests for `"a"` — the run's fetch trace is not duplicate-free. -/
theorem crawl_refetch_cx :
    ((crawl exWorldNonHtml 3 (mkCrawler 5 3) ["a", "a"]).1.fetchLog = ["a", "a"]) ∧
    ¬ ((crawl exWorldNonHtml 3 (mkCrawler 5 3) ["a", "a"]).1.fetchLog.Nodup) := by
  decide

/-- Claim C7 (amended): in every crawl run started on a crawler with no pages
collected yet, the collected pages have pairwise-distinct URLs (no URL yields
a `CrawledPage` twice — though a *failed* fetch is not marked visited and can
be re-attempted, per the counterexample), the number of collected pages never
exceeds `max_pages`, and no collected page has depth above `max_depth`. -/
theorem crawl_safety (w : World) (fuel : ℕ) (s : CrawlerState)
    (seed_urls : List String) (hstart : s.pages = []) :
    ((crawl w fuel s seed_urls).2.map (·.url)).Nodup ∧
    (crawl w fuel s seed_urls).2.length ≤ s.max_pages ∧
    ∀ p ∈ (crawl w fuel s seed_urls).2, p.depth ≤ s.max_depth := by
  have hinv : CrawlInv s.max_pages s.max_depth
      { s with queue := s.queue ++ seed_urls.map (fun u => (u, 0)) } := by
    refine ⟨rfl, rfl, ?_, ?_, ?_, ?_⟩ <;> simp [hstart]
  have hfinal := crawl_loop_inv w fuel _ hinv
  obtain ⟨_, _, hnodup, _, hlen, hdepth⟩ := hfinal
  exact ⟨hnodup, hlen, hdepth⟩

/-- Claim C7 (witness): the amended statement on a fresh crawler in a world
where every fetch fails. -/
theorem crawl_safety_witness :
    ((crawl exWorldDown 4 (mkCrawler 5 3) ["a", "b"]).2.map (·.url)).Nodup ∧
    (crawl exWorldDown 4 (mkCrawler 5 3) ["a", "b"]).2.length ≤ (mkCrawler 5 3).max_pages ∧
    ∀ p ∈ (crawl exWorldDown 4 (mkCrawler 5 3) ["a", "b"]).2,
      p.depth ≤ (mkCrawler 5 3).max_depth :=
  crawl_safety exWorldDown 4 (mkCrawler 5 3) ["a", "b"] rfl

/-! ### C2 — crawl state across facade runs -/

/-- Claim C2: evaluation of the code at the failing input.  The facade reuses
one `WebCrawler`: after `crawl_and_index(["u1"])`, the second call
`crawl_and_index(["u1", "u2"])` starts with `visited = ["u1"]`, does not fetch
`"u1"` again (the full fetch trace holds a single `"u1"`), and returns a page
list that still contains the page fetched during the first run. -/
theorem facade_crawler_state_persists :
    seRun1.1.crawler.visited = ["u1"] ∧
    seRun1.2.map (·.url) = ["u1"] ∧
    seRun2.2.map (·.url) = ["u1", "u2"] ∧
    seRun2.1.crawler.fetchLog = ["u1", "u2"] := by decide

/-! ### C5 — determinism of `rank_results` -/

/-- `score_result` does not depend on the call time when the hit carries no
crawl timestamp. -/
theorem score_result_time_indep {w : RankingWeights} {t1 t2 : ℝ}
    {query_terms all_contents : List String} {r : SearchHit}
    (h : r.crawl_time = none) :
    score_result w t1 query_terms all_contents r =
      score_result w t2 query_terms all_contents r := by
  simp [score_result, calculate_freshness_score, h]

/-- Ranking the single timestamp-only hit reduces to its freshness score. -/
theorem rank_single_fresh (t : ℝ) :
    (rank_results default_weights t [exHitFresh] "").map (·.ranking_score) =
      [Real.exp (-((t - 2592000) / (24 * 3600)) / 30)] := by
  have hq : pyWords (pyLower "") = [] := by
    simp [pyWords, pyLower, String.split_of_valid]
  simp [rank_results, hq, sort_desc, insert_desc, score_result, exHitFresh,
        calculate_title_score, calculate_content_score, calculate_url_score,
        calculate_freshness_score, calculate_content_length_score,
        calculate_depth_penalty, default_weights]
  ring

/-- Claim C5 (counterexample): identical hit list, query string and weights,
but the two calls made 30 days apart return different scores — the freshness
component reads the wall clock (`time.time()`), so `rank_results` is not a
pure function of hits, query and weights alone. -/
theorem rank_results_time_dependent_cx :
    (rank_results default_weights 2592000 [exHitFresh] "").map (·.ranking_score) ≠
      (rank_results default_weights 5184000 [exHitFresh] "").map (·.ranking_score) := by
  rw [rank_single_fresh, rank_single_fresh]
  intro hcontra
  rw [List.cons.injEq] at hcontra
  have h1 := hcontra.1
  rw [Real.exp_eq_exp] at h1
  norm_num at h1

/-- Claim C5 (amended): `rank_results` is a deterministic pure function of the
hit list, query string, weights **and the wall-clock time of the call**; in
particular, whenever no hit carries a crawl timestamp the output is the same
at every call time. -/
theorem rank_results_time_invariant (w : RankingWeights) (t1 t2 : ℝ)
    (results : List SearchHit) (query_string : String)
    (h : ∀ r ∈ results, r.crawl_time = none) :
    rank_results w t1 results query_string =
      rank_results w t2 results query_string := by
  cases results with
  | nil => rfl
  | cons r rs =>
    unfold rank_results
    dsimp only
    congr 1
    apply List.map_congr_left
    intro x hx
    exact score_result_time_indep (h x hx)

/-- Claim C5 (witness): two calls 12345 seconds apart on a timestamp-free hit
agree. -/
theorem rank_results_time_invariant_witness :
    rank_results default_weights 0 [exHitStale] "query" =
      rank_results default_weights 12345 [exHitStale] "query" :=
  rank_results_time_invariant default_weights 0 12345 [exHitStale] "query"
    (by intro r hr; rw [List.mem_singleton] at hr; subst hr; rfl)

end SearchEngine168
